import Mathlib

/-!
Shallow embedding of the sender-service transfer orchestration code
(`services/transfer_service.go`, `repositories/transfer_repository.go`,
`models/transfer.go`, and the `handlers` transfer handler), together with
theorems checking the specification's claims against it.

Modelling conventions:
* Go strings are `String`, Go `int` is `Int`, `time.Time` is a `Nat`
  counting nanoseconds since the epoch (the unit of `time.Now().UnixNano()`).
* All clock readings inside one service call are modelled as a single
  instant `now` passed in as a parameter.
* The outcomes of external effects (the Auth-Service HTTP calls and the
  repository operations) are passed in as parameters, and the writes a call
  issues are returned explicitly, so theorems can speak about which balance
  writes and store updates a call performed.
* Go `error` results become `Except String _` carrying the exact
  `errors.New` strings of the source.
-/

/-- `models.Transfer` (src/models/transfer.go, lines 7-19). -/
structure Transfer where
  id            : String
  senderID      : String
  senderEmail   : String
  receiverEmail : String
  receiverName  : String
  points        : Int
  status        : String
  token         : String
  expiresAt     : Nat
  createdAt     : Nat
  updatedAt     : Nat
  deriving DecidableEq, Repr

/-- `models.TransferRequest` (src/models/transfer.go, lines 22-26). -/
structure TransferRequest where
  receiverEmail : String
  receiverName  : String
  points        : Int
  deriving DecidableEq, Repr

/-- `models.User` (src/models/transfer.go, lines 29-34): the Auth-Service
response body, whose `points` field is the sender's current balance. -/
structure User where
  id     : String
  email  : String
  name   : String
  points : Int
  deriving DecidableEq, Repr

/-- `24 * time.Hour` expressed in nanoseconds. -/
def hours24 : Nat := 24 * 60 * 60 * 1000000000

/-- `generateID` (transfer_service.go, lines 195-197):
`fmt.Sprintf("transfer_%d", time.Now().UnixNano())`. -/
def generateID (nowNano : Nat) : String := "transfer_" ++ toString nowNano

/-- `generateToken` (transfer_service.go, lines 200-202):
`fmt.Sprintf("token_%d", time.Now().UnixNano())`. -/
def generateToken (nowNano : Nat) : String := "token_" ++ toString nowNano

/-- `validateTransfer` (transfer_service.go, lines 125-142).  Returns the
error message of the first failing business rule, in source order:
insufficient points, then transfer-to-self, then non-positive amount. -/
def validateTransfer (sender : User) (req : TransferRequest) : Option String :=
  if sender.points < req.points then some "insufficient points"
  else if sender.email == req.receiverEmail then some "cannot transfer points to yourself"
  else if req.points ≤ 0 then some "points must be greater than zero"
  else none

/-- `InitiateTransfer` (transfer_service.go, lines 35-80).  `userRes` is the
outcome of the `getUser` call (`none` when it fails), `createOk` the outcome
of the repository `Create`, and `now` the call's clock reading, which feeds
every `time.Now()` in the call body.  The asynchronous email dispatch never
affects the returned value and is omitted. -/
def InitiateTransfer (senderID : String) (req : TransferRequest)
    (userRes : Option User) (now : Nat) (createOk : Bool) :
    Except String Transfer :=
  match userRes with
  | none => Except.error "failed to get sender details"
  | some sender =>
    match validateTransfer sender req with
    | some e => Except.error e
    | none =>
      if createOk then
        Except.ok
          { id := generateID now
            senderID := senderID
            senderEmail := sender.email
            receiverEmail := req.receiverEmail
            receiverName := req.receiverName
            points := req.points
            status := "pending"
            token := generateToken now
            expiresAt := now + hours24
            createdAt := now
            updatedAt := now }
      else Except.error "failed to create transfer"

/-- The external writes issued by one `CompleteTransfer` call:
`balanceWrites` records the `updateUserPoints` PUT requests issued (user id
and new absolute balance) and `storeUpdates` the records passed to the
repository `Update`, in issue order. -/
structure CompleteEffects where
  balanceWrites : List (String × Int)
  storeUpdates  : List Transfer
  deriving DecidableEq, Repr

/-- `CompleteTransfer` (transfer_service.go, lines 88-122).  `findRes` is
the outcome of `FindByID`, `userRes` of `getUser`, `deductOk` of the
`updateUserPoints` call, `updateFailedOk` of the `Update` in the
insufficient-points branch (line 104, whose return value the source
discards), and `updateCompletedOk` of the `Update` writing the `completed`
status (line 115).  The source checks neither the record's status nor its
expiry: no such branch appears here because none appears in the code. -/
def CompleteTransfer (findRes : Option Transfer) (userRes : Option User)
    (deductOk : Bool) (updateFailedOk : Bool) (updateCompletedOk : Bool) :
    Except String Unit × CompleteEffects :=
  match findRes with
  | none => (Except.error "transfer not found", ⟨[], []⟩)
  | some transfer =>
    match userRes with
    | none => (Except.error "failed to get sender details", ⟨[], []⟩)
    | some sender =>
      if sender.points < transfer.points then
        (Except.error "sender no longer has sufficient points",
         ⟨[], [{ transfer with status := "failed" }]⟩)
      else
        if deductOk then
          if updateCompletedOk then
            (Except.ok (),
             ⟨[(transfer.senderID, sender.points - transfer.points)],
              [{ transfer with status := "completed" }]⟩)
          else
            (Except.error "failed to complete transfer",
             ⟨[(transfer.senderID, sender.points - transfer.points)],
              [{ transfer with status := "completed" }]⟩)
        else
          (Except.error "failed to deduct points from sender",
           ⟨[(transfer.senderID, sender.points - transfer.points)], []⟩)

/-- Insertion step of sorting newest-first by `createdAt` (the effect of
the repository query's `ORDER BY created_at DESC`). -/
def insertByCreatedAtDesc (t : Transfer) : List Transfer → List Transfer
  | [] => [t]
  | x :: xs =>
    if x.createdAt ≤ t.createdAt then t :: x :: xs
    else x :: insertByCreatedAtDesc t xs

/-- Sort a list of records newest-first by `createdAt`. -/
def sortByCreatedAtDesc (l : List Transfer) : List Transfer :=
  l.foldr insertByCreatedAtDesc []

/-- `FindBySenderID` (transfer_repository.go, lines 27-34): the SQL query
`SELECT * FROM transfers WHERE sender_id = ? ORDER BY created_at DESC`,
over an explicit table of rows `store`. -/
def FindBySenderID (store : List Transfer) (senderID : String) : List Transfer :=
  sortByCreatedAtDesc (store.filter fun t => t.senderID == senderID)

/-- `GetUserTransfers` (transfer_service.go, lines 83-85): delegates to the
repository. -/
def GetUserTransfers (store : List Transfer) (userID : String) : List Transfer :=
  FindBySenderID store userID

/-- One record as the handler serializes it: the JSON key/value pairs
dictated by the struct tags of `models.Transfer` (transfer.go, lines 7-19),
numeric fields rendered with `toString`.  The `Token` field carries the tag
`json:"token"`, so it is marshalled like every other field. -/
def transferJSON (t : Transfer) : List (String × String) :=
  [("id", t.id), ("sender_id", t.senderID), ("sender_email", t.senderEmail),
   ("receiver_email", t.receiverEmail), ("receiver_name", t.receiverName),
   ("points", toString t.points), ("status", t.status), ("token", t.token),
   ("expires_at", toString t.expiresAt), ("created_at", toString t.createdAt),
   ("updated_at", toString t.updatedAt)]

/-- The `data` payload of the handler `GetTransfers` (handlers file, lines
64-81): every record returned by `GetUserTransfers`, serialized with all of
its JSON fields. -/
def GetTransfersData (store : List Transfer) (userID : String) :
    List (List (String × String)) :=
  (GetUserTransfers store userID).map transferJSON

/-! Concrete fixtures used by individual claims' theorems and witnesses. -/

/-- A sender as the Auth Service returns it, holding 100 points. -/
def uAlice : User :=
  { id := "u1", email := "alice@example.com", name := "Alice", points := 100 }

/-- A sender whose balance has dropped to 10 points. -/
def uBroke : User :=
  { id := "u1", email := "alice@example.com", name := "Alice", points := 10 }

/-- A request for 50 points to a distinct receiver. -/
def reqBob : TransferRequest :=
  { receiverEmail := "bob@example.com", receiverName := "Bob", points := 50 }

/-- A second sender, used for the token-collision scenario. -/
def uDana : User :=
  { id := "u2", email := "dana@example.com", name := "Dana", points := 60 }

/-- A second receiver's request, for the token-collision scenario. -/
def reqEve : TransferRequest :=
  { receiverEmail := "eve@example.com", receiverName := "Eve", points := 20 }

/-- A sender used for the validation-order counterexample. -/
def uCarol : User :=
  { id := "u3", email := "carol@example.com", name := "Carol", points := 100 }

/-- A request addressed to `uCarol`'s own email for a negative amount: it
violates both the positivity rule and the self-transfer rule at once. -/
def reqSelfNeg : TransferRequest :=
  { receiverEmail := "carol@example.com", receiverName := "Carol", points := -5 }

/-- A pending 50-point record from `uAlice` to Bob. -/
def tPending : Transfer :=
  { id := "transfer_1000", senderID := "u1", senderEmail := "alice@example.com",
    receiverEmail := "bob@example.com", receiverName := "Bob", points := 50,
    status := "pending", token := "token_1000", expiresAt := 1000 + hours24,
    createdAt := 1000, updatedAt := 1000 }

/-- The same record after a first successful completion. -/
def tCompleted : Transfer := { tPending with status := "completed" }

/-- A still-pending record whose expiry timestamp (1) lies before its own
creation timestamp (1000), so its expiry has passed at any instant at which
a call can observe it. -/
def tStale : Transfer := { tPending with expiresAt := 1 }

/-- The record `InitiateTransfer` builds from `uAlice` and `reqBob` at
clock reading 2000. -/
def tFresh : Transfer :=
  { id := "transfer_2000", senderID := "u1", senderEmail := "alice@example.com",
    receiverEmail := "bob@example.com", receiverName := "Bob", points := 50,
    status := "pending", token := "token_2000", expiresAt := 2000 + hours24,
    createdAt := 2000, updatedAt := 2000 }

/-! Shared helper lemmas. -/

/-- Any record that `InitiateTransfer` returns successfully is the freshly
built one: status `pending`, expiry exactly 24 hours after creation, and
creation stamped with the call's clock reading. -/
theorem initiate_ok_shape (senderID : String) (req : TransferRequest)
    (userRes : Option User) (now : Nat) (createOk : Bool) (t : Transfer)
    (h : InitiateTransfer senderID req userRes now createOk = Except.ok t) :
    t.status = "pending" ∧ t.expiresAt = t.createdAt + hours24 ∧
    t.createdAt = now := by
  unfold InitiateTransfer at h
  split at h
  · exact absurd h (by simp)
  · split at h
    · exact absurd h (by simp)
    · split at h
      · rw [Except.ok.injEq] at h
        subst h
        exact ⟨rfl, rfl, rfl⟩
      · exact absurd h (by simp)

/-- Every record `CompleteTransfer` hands to the repository `Update` call
carries status `failed` or `completed`; the call writes no other status. -/
theorem complete_updates_status (findRes : Option Transfer)
    (userRes : Option User) (deductOk updateFailedOk updateCompletedOk : Bool) :
    ∀ t ∈ (CompleteTransfer findRes userRes deductOk updateFailedOk
            updateCompletedOk).2.storeUpdates,
      t.status = "failed" ∨ t.status = "completed" := by
  intro t ht
  unfold CompleteTransfer at ht
  split at ht
  · simp at ht
  · split at ht
    · simp at ht
    · split at ht
      · simp at ht
        subst ht
        exact Or.inl rfl
      · split at ht
        · split at ht
          · simp at ht
            subst ht
            exact Or.inr rfl
          · simp at ht
            subst ht
            exact Or.inr rfl
        · simp at ht

/-! Claim theorems. -/

/-- C1: the claim states that Complete on a record whose status is not
`pending` is rejected with InvalidState before any balance read or write.
The code has no status guard: completing the already-completed record
`tCompleted` succeeds again and issues a second balance write of 50 points
against the sender, so the debit is not applied at most once. -/
theorem C1_complete_on_completed_debits_again :
    tCompleted.status ≠ "pending" ∧
    CompleteTransfer (some tCompleted) (some uAlice) true true true
      = (Except.ok (), ⟨[("u1", 50)], [tCompleted]⟩) :=
  ⟨by decide, rfl⟩

/-- C2: the claim states that Complete on a pending record whose expiry has
passed marks it `expired` and returns TransferExpired without touching the
balance.  The code never reads `expiresAt`: on the stale record `tStale`
(expiry before its own creation) it debits the sender and writes status
`completed`, never `expired`. -/
theorem C2_expired_record_still_debited :
    tStale.status = "pending" ∧ tStale.expiresAt < tStale.createdAt ∧
    CompleteTransfer (some tStale) (some uAlice) true true true
      = (Except.ok (), ⟨[("u1", 50)], [{ tStale with status := "completed" }]⟩) :=
  ⟨rfl, by decide, rfl⟩

/-- C3: the claim states that the ListForSender payload never includes the
claim token field.  The handler serializes each record with all the JSON
struct tags of `models.Transfer`, among them `json:"token"`: the payload
for the single record `tPending` carries the pair `("token", "token_1000")`. -/
theorem C3_list_payload_carries_token :
    GetTransfersData [tPending] "u1" = [transferJSON tPending] ∧
    ("token", "token_1000") ∈ transferJSON tPending :=
  ⟨rfl, by decide⟩

/-- C4: if the sender resolves, the record's points are covered by the
sender's balance, and the balance write fails (`deductOk = false`), then
Complete returns the balance-update failure error "failed to deduct points
from sender" and issues no store update at all, so a record that was
`pending` stays `pending` and a retry of Complete is safe. -/
theorem C4_deduct_failure_no_store_update (t : Transfer) (sender : User)
    (updateFailedOk updateCompletedOk : Bool)
    (hpending : t.status = "pending")
    (hfunds : t.points ≤ sender.points) :
    CompleteTransfer (some t) (some sender) false updateFailedOk updateCompletedOk
      = (Except.error "failed to deduct points from sender",
         ⟨[(t.senderID, sender.points - t.points)], []⟩) := by
  simp [CompleteTransfer, not_lt.mpr hfunds]

/-- C4 witness at the concrete pending record and solvent sender. -/
theorem C4_witness :
    CompleteTransfer (some tPending) (some uAlice) false true true
      = (Except.error "failed to deduct points from sender",
         ⟨[("u1", 50)], []⟩) :=
  C4_deduct_failure_no_store_update tPending uAlice true true rfl (by decide)

/-- C5: whenever the sender's current balance is strictly below the
record's points, Complete issues exactly one store update, carrying status
`failed`, issues no balance write, and returns the insufficient-points
error. -/
theorem C5_insufficient_marks_failed (t : Transfer) (sender : User)
    (deductOk updateFailedOk updateCompletedOk : Bool)
    (hfunds : sender.points < t.points) :
    CompleteTransfer (some t) (some sender) deductOk updateFailedOk updateCompletedOk
      = (Except.error "sender no longer has sufficient points",
         ⟨[], [{ t with status := "failed" }]⟩) := by
  simp [CompleteTransfer, hfunds]

/-- C5 witness at the concrete pending record and a sender holding only 10
points. -/
theorem C5_witness :
    CompleteTransfer (some tPending) (some uBroke) true true true
      = (Except.error "sender no longer has sufficient points",
         ⟨[], [{ tPending with status := "failed" }]⟩) :=
  C5_insufficient_marks_failed tPending uBroke true true true (by decide)

/-- C6 counterexample: the claim predicts that an input violating both the
positivity rule and the self-transfer rule fails with the invalid-amount
error.  On a request to the sender's own address for -5 points the code
answers with the self-transfer error instead, because `validateTransfer`
checks self-transfer before positivity. -/
theorem C6_counterexample :
    validateTransfer uCarol reqSelfNeg = some "cannot transfer points to yourself" ∧
    validateTransfer uCarol reqSelfNeg ≠ some "points must be greater than zero" :=
  ⟨rfl, by decide⟩

/-- C6 (amended): the preconditions are checked in this order, first
failure winning: (1) the sender resolves, else the sender-lookup error;
(2) the sender's balance covers the points, else the insufficient-points
error; (3) the receiver email differs from the sender's email by
case-sensitive comparison, else the self-transfer error; (4) the points
are positive, else the invalid-amount error. -/
theorem C6_checks_in_source_order (senderID : String) (req : TransferRequest)
    (now : Nat) (createOk : Bool) (sender : User) :
    InitiateTransfer senderID req none now createOk
      = Except.error "failed to get sender details" ∧
    (sender.points < req.points →
      validateTransfer sender req = some "insufficient points") ∧
    (¬ sender.points < req.points → sender.email = req.receiverEmail →
      validateTransfer sender req = some "cannot transfer points to yourself") ∧
    (¬ sender.points < req.points → ¬ sender.email = req.receiverEmail →
      req.points ≤ 0 →
      validateTransfer sender req = some "points must be greater than zero") ∧
    (¬ sender.points < req.points → ¬ sender.email = req.receiverEmail →
      ¬ req.points ≤ 0 → validateTransfer sender req = none) := by
  refine ⟨rfl, ?_, ?_, ?_, ?_⟩
  · intro h1
    simp [validateTransfer, h1]
  · intro h1 h2
    simp [validateTransfer, h1, h2]
  · intro h1 h2 h3
    simp [validateTransfer, h1, h2, h3]
  · intro h1 h2 h3
    simp [validateTransfer, h1, h2, h3]

/-- C6 witness: one concrete input through each of the four validation
outcomes, in the proven order. -/
theorem C6_order_witness :
    validateTransfer uBroke reqBob = some "insufficient points" ∧
    validateTransfer uCarol reqSelfNeg = some "cannot transfer points to yourself" ∧
    validateTransfer uAlice { reqBob with points := -5 }
      = some "points must be greater than zero" ∧
    validateTransfer uAlice reqBob = none := by
  refine ⟨?_, ?_, ?_, ?_⟩
  · exact (C6_checks_in_source_order "u1" reqBob 0 true uBroke).2.1 (by decide)
  · exact (C6_checks_in_source_order "u3" reqSelfNeg 0 true uCarol).2.2.1
      (by decide) (by decide)
  · exact (C6_checks_in_source_order "u1" { reqBob with points := -5 } 0 true
      uAlice).2.2.2.1 (by decide) (by decide) (by decide)
  · exact (C6_checks_in_source_order "u1" reqBob 0 true uAlice).2.2.2.2
      (by decide) (by decide) (by decide)

/-- C7: every record a successful Initiate returns has status `pending` and
an expiry exactly 24 hours after its creation timestamp (the call's clock
readings are modelled as one instant). -/
theorem C7_initiate_success_pending_24h (senderID : String)
    (req : TransferRequest) (userRes : Option User) (now : Nat)
    (createOk : Bool) (t : Transfer)
    (h : InitiateTransfer senderID req userRes now createOk = Except.ok t) :
    t.status = "pending" ∧ t.expiresAt = t.createdAt + hours24 :=
  ⟨(initiate_ok_shape senderID req userRes now createOk t h).1,
   (initiate_ok_shape senderID req userRes now createOk t h).2.1⟩

/-- C7 witness at a concrete successful initiation. -/
theorem C7_witness :
    tFresh.status = "pending" ∧ tFresh.expiresAt = tFresh.createdAt + hours24 :=
  C7_initiate_success_pending_24h "u1" reqBob (some uAlice) 2000 true tFresh rfl

/-- C8: the claim states that tokens are unique even for records created at
the same instant.  The generator is the creation instant's nanosecond
count, so two distinct records created at clock reading 3000 (different
senders, receivers and amounts) both carry the token "token_3000". -/
theorem C8_same_instant_token_collision :
    (InitiateTransfer "u1" reqBob (some uAlice) 3000 true).toOption.map
        Transfer.token = some "token_3000" ∧
    (InitiateTransfer "u2" reqEve (some uDana) 3000 true).toOption.map
        Transfer.token = some "token_3000" ∧
    (InitiateTransfer "u1" reqBob (some uAlice) 3000 true).toOption
      ≠ (InitiateTransfer "u2" reqEve (some uDana) 3000 true).toOption :=
  ⟨rfl, rfl, by decide⟩

/-- C9: in the insufficient-points branch the outcome of the store update
writing the `failed` status is discarded: the whole result of Complete is
unchanged when that outcome flips, and the returned error is still the
insufficient-points one. -/
theorem C9_failed_update_outcome_discarded (t : Transfer) (sender : User)
    (deductOk updateFailedOk updateFailedOk2 updateCompletedOk : Bool)
    (hfunds : sender.points < t.points) :
    CompleteTransfer (some t) (some sender) deductOk updateFailedOk
        updateCompletedOk
      = CompleteTransfer (some t) (some sender) deductOk updateFailedOk2
          updateCompletedOk ∧
    (CompleteTransfer (some t) (some sender) deductOk updateFailedOk
        updateCompletedOk).1
      = Except.error "sender no longer has sufficient points" := by
  simp [CompleteTransfer, hfunds]

/-- C9 witness: the failing and succeeding store-update outcomes give the
same result on a concrete insufficient-balance completion. -/
theorem C9_witness :
    CompleteTransfer (some tPending) (some uBroke) true false true
      = CompleteTransfer (some tPending) (some uBroke) true true true ∧
    (CompleteTransfer (some tPending) (some uBroke) true false true).1
      = Except.error "sender no longer has sufficient points" :=
  C9_failed_update_outcome_discarded tPending uBroke true false true true
    (by decide)

/-- C10: every status the service writes is `pending` (the record a
successful Initiate returns and persists) or `failed` or `completed` (the
records Complete hands to the store update); no operation ever writes
`expired` or `cancelled`. -/
theorem C10_status_vocabulary (senderID : String) (req : TransferRequest)
    (userRes : Option User) (now : Nat) (createOk : Bool)
    (findRes : Option Transfer) (userRes2 : Option User)
    (deductOk updateFailedOk updateCompletedOk : Bool) :
    (∀ t, InitiateTransfer senderID req userRes now createOk = Except.ok t →
      t.status = "pending") ∧
    (∀ t ∈ (CompleteTransfer findRes userRes2 deductOk updateFailedOk
              updateCompletedOk).2.storeUpdates,
      t.status = "failed" ∨ t.status = "completed") :=
  ⟨fun t h => (initiate_ok_shape senderID req userRes now createOk t h).1,
   complete_updates_status findRes userRes2 deductOk updateFailedOk
     updateCompletedOk⟩

/-- C10 witness: a concrete created record has status `pending` and a
concrete updated record has status `failed`. -/
theorem C10_witness :
    tFresh.status = "pending" ∧
    ({ tPending with status := "failed" }.status = "failed" ∨
     { tPending with status := "failed" }.status = "completed") :=
  ⟨(C10_status_vocabulary "u1" reqBob (some uAlice) 2000 true (some tPending)
      (some uBroke) true true true).1 tFresh rfl,
   (C10_status_vocabulary "u1" reqBob (some uAlice) 2000 true (some tPending)
      (some uBroke) true true true).2 { tPending with status := "failed" }
      (by decide)⟩
